import Mathlib

/-!
Verification of the query-rewrite classification and dispatch engine
(`src/rewriter.py`) of the astrbot_plugin_ragflow_adapter repository.

The embedding models Python values produced by `json.loads` with the
inductive `PyValue`, Python string operations (`strip`, `replace`,
substring `in`) with executable character-list functions, the injected
model-completion capability (`Provider.text_chat`) with an abstract
function `String → ProviderReply`, and `json.loads` itself with an
abstract function `String → Option PyValue` (`none` models a
`json.JSONDecodeError`; with a string argument `json.loads` raises no
`TypeError`).  Python exceptions escaping `rewrite_query` are modelled
with `Except PyError`.
-/

/-- A Python value as produced by `json.loads`: `None`, `bool`, a number
(`int` or `float`, collapsed to `ℚ` since the engine never computes with
numbers), `str`, `list`, or `dict`. -/
inductive PyValue where
  | pyNone : PyValue
  | pyBool : Bool → PyValue
  | pyNum : ℚ → PyValue
  | pyStr : String → PyValue
  | pyList : List PyValue → PyValue
  | pyDict : List (String × PyValue) → PyValue

/-- The Python exceptions that the dispatch code can raise:
`AttributeError` (calling `.get` on a non-dict) and `TypeError`
(`in` applied to a non-container). -/
inductive PyError where
  | attributeError : PyError
  | typeError : PyError
deriving DecidableEq, Repr

/-- One reply of the injected completion capability for one prompt:
`text_chat` raises, returns a falsy response object, or returns a
response whose `completion_text` field is `None` (`completion none`)
or a string (`completion (some t)`). -/
inductive ProviderReply where
  | raises : ProviderReply
  | noResp : ProviderReply
  | completion : Option String → ProviderReply

/-- A behaviour of the completion capability: the reply it gives to each
prompt string. -/
def ProviderFun : Type := String → ProviderReply

/-- A model of `json.loads` restricted to string input: `none` models a
raised `json.JSONDecodeError`, `some v` a successful parse. -/
def ParseFun : Type := String → Option PyValue

/-- Does the character list start with the pattern? (Helper for the
Python substring and replace operations.) -/
def hasLead (pat l : List Char) : Bool :=
  l.take pat.length == pat

/-- Python substring containment over character lists: scans every
suffix for the pattern. -/
def containsRun (pat : List Char) : List Char → Bool
  | [] => pat == []
  | c :: cs => hasLead pat (c :: cs) || containsRun pat cs

/-- Python `needle in s` for strings: substring containment (the empty
needle is contained in every string). -/
def strIn (needle s : String) : Bool :=
  containsRun needle.data s.data

/-- Python `str.replace` over character lists, with explicit fuel (the
initial list length suffices because each step consumes at least one
character for a nonempty pattern). -/
def replaceChars (pat rep : List Char) : Nat → List Char → List Char
  | _, [] => []
  | 0, l => l
  | Nat.succ fuel, c :: cs =>
    if hasLead pat (c :: cs) then
      rep ++ replaceChars pat rep fuel ((c :: cs).drop pat.length)
    else
      c :: replaceChars pat rep fuel cs

/-- Python `s.replace(pat, rep)`: replace every non-overlapping
occurrence, scanning left to right. -/
def pyReplace (s pat rep : String) : String :=
  String.mk (replaceChars pat.data rep.data s.data.length s.data)

/-- Python `str.strip()` (no argument): remove leading and trailing
whitespace.  Whitespace is modelled by `Char.isWhitespace`
(space, tab, carriage return, newline). -/
def pyStrip (s : String) : String :=
  String.mk (((s.data.dropWhile Char.isWhitespace).reverse.dropWhile
    Char.isWhitespace).reverse)

/-- `QueryRewriterBase._get_completion` (rewriter.py lines 17-27): call
`provider.text_chat(prompt)`; on an exception return the empty string;
otherwise return `resp.completion_text.strip() if resp and
resp.completion_text else ""`. -/
def getCompletion (provider : ProviderFun) (prompt : String) : String :=
  match provider prompt with
  | ProviderReply.raises => ""
  | ProviderReply.noResp => ""
  | ProviderReply.completion none => ""
  | ProviderReply.completion (some t) => if t = "" then "" else pyStrip t

/-- The code-fence cleanup applied by both JSON-consuming call sites
(rewriter.py lines 124 and 191):
`response.strip().replace("```json", "").replace("```", "").strip()`. -/
def cleanResponse (response : String) : String :=
  pyStrip (pyReplace (pyReplace (pyStrip response) "```json" "") "```" "")

/-- The instruction block of `ContextDependentRewriter.rewrite`
(rewriter.py lines 39-43). -/
def contextDependentInstruction : String :=
  "\n你是一个智能的查询优化助手。请分析用户的当前问题以及前序对话历史，判断当前问题是否依赖于上下文。\n如果依赖，请将当前问题改写成一个独立的、包含所有必要上下文信息的完整问题。\n如果不依赖，直接返回原问题。\n"

/-- The prompt `ContextDependentRewriter.rewrite` sends (lines 44-54). -/
def contextDependentPrompt (currentQuery conversationHistory : String) : String :=
  "### 指令 ###\n" ++ contextDependentInstruction ++ "\n\n### 对话历史 ###\n" ++
    conversationHistory ++ "\n\n### 当前问题 ###\n" ++ currentQuery ++
    "\n\n### 改写后的问题 ###\n"

/-- `ContextDependentRewriter.rewrite` (lines 37-55): build the prompt
and return the gateway completion as-is. -/
def contextDependentRewrite (provider : ProviderFun)
    (currentQuery conversationHistory : String) : String :=
  getCompletion provider (contextDependentPrompt currentQuery conversationHistory)

/-- The instruction block of `ComparativeRewriter.rewrite`
(lines 63-66). -/
def comparativeInstruction : String :=
  "\n你是一个查询分析专家。请分析用户的输入和相关的对话上下文，识别出问题中需要进行比较的多个对象。\n然后，将原始问题改写成一个更明确、更适合在知识库中检索的对比性查询。\n"

/-- The prompt `ComparativeRewriter.rewrite` sends (lines 67-77). -/
def comparativePrompt (query contextInfo : String) : String :=
  "### 指令 ###\n" ++ comparativeInstruction ++ "\n\n### 对话历史/上下文信息 ###\n" ++
    contextInfo ++ "\n\n### 原始问题 ###\n" ++ query ++ "\n\n### 改写后的查询 ###\n"

/-- `ComparativeRewriter.rewrite` (lines 61-78). -/
def comparativeRewrite (provider : ProviderFun) (query contextInfo : String) : String :=
  getCompletion provider (comparativePrompt query contextInfo)

/-- The instruction block of `AmbiguousReferenceRewriter.rewrite`
(lines 86-89). -/
def ambiguousReferenceInstruction : String :=
  "\n你是一个消除语言歧义的专家。请分析用户的当前问题和对话历史，找出问题中 \"都\"、\"它\"、\"这个\" 等模糊指代词具体指向的对象。\n然后，将这些指代词替换为明确的对象名称，生成一个清晰、无歧义的新问题。\n"

/-- The prompt `AmbiguousReferenceRewriter.rewrite` sends (lines 90-100). -/
def ambiguousReferencePrompt (currentQuery conversationHistory : String) : String :=
  "### 指令 ###\n" ++ ambiguousReferenceInstruction ++ "\n\n### 对话历史 ###\n" ++
    conversationHistory ++ "\n\n### 当前问题 ###\n" ++ currentQuery ++
    "\n\n### 改写后的问题 ###\n"

/-- `AmbiguousReferenceRewriter.rewrite` (lines 84-101). -/
def ambiguousReferenceRewrite (provider : ProviderFun)
    (currentQuery conversationHistory : String) : String :=
  getCompletion provider (ambiguousReferencePrompt currentQuery conversationHistory)

/-- The instruction block of `MultiIntentRewriter.rewrite`
(lines 109-111). -/
def multiIntentInstruction : String :=
  "\n你是一个任务分解机器人。请将用户的复杂问题分解成多个独立的、可以单独回答的简单问题。以JSON数组格式输出。\n"

/-- The prompt `MultiIntentRewriter.rewrite` sends (lines 112-120). -/
def multiIntentPrompt (query : String) : String :=
  "### 指令 ###\n" ++ multiIntentInstruction ++ "\n\n### 原始问题 ###\n" ++ query ++
    "\n\n### 分解后的问题列表 ###\n请以JSON数组格式输出，例如：[\"问题1\", \"问题2\", \"问题3\"]\n"

/-- `MultiIntentRewriter.rewrite` (lines 107-127): obtain the
completion, strip code fences, `json.loads` it; on a parse failure
return the one-element list holding the raw completion text.  A
successful parse is returned unchanged, whatever Python value it is
(the `List[str]` annotation is not enforced at runtime). -/
def multiIntentRewrite (jparse : ParseFun) (provider : ProviderFun)
    (query : String) : PyValue :=
  let response := getCompletion provider (multiIntentPrompt query)
  match jparse (cleanResponse response) with
  | some v => v
  | none => PyValue.pyList [PyValue.pyStr response]

/-- The instruction block of `RhetoricalRewriter.rewrite`
(lines 135-138). -/
def rhetoricalInstruction : String :=
  "\n你是一个沟通理解大师。请分析用户的反问或带有情绪的陈述，识别其背后真实的意图和问题。\n然后，将这个反问改写成一个中立、客观、可以直接用于知识库检索的问题。\n"

/-- The prompt `RhetoricalRewriter.rewrite` sends (lines 139-149). -/
def rhetoricalPrompt (currentQuery conversationHistory : String) : String :=
  "### 指令 ###\n" ++ rhetoricalInstruction ++ "\n\n### 对话历史 ###\n" ++
    conversationHistory ++ "\n\n### 当前问题 ###\n" ++ currentQuery ++
    "\n\n### 改写后的问题 ###\n"

/-- `RhetoricalRewriter.rewrite` (lines 133-150). -/
def rhetoricalRewrite (provider : ProviderFun)
    (currentQuery conversationHistory : String) : String :=
  getCompletion provider (rhetoricalPrompt currentQuery conversationHistory)

/-- The instruction block of `QueryTypeDetector.detect` (lines 158-174);
the two literal braces of the JSON example are written escaped. -/
def detectInstruction : String :=
  "\n你是一个智能的查询分析专家。请分析用户的查询，识别其属于以下哪种类型：\n1. 上下文依赖型 - 包含\"还有\"、\"其他\"等需要上下文理解的词汇\n2. 对比型 - 包含\"哪个\"、\"比较\"、\"更\"、\"哪个更好\"、\"哪个更\"等比较词汇\n3. 模糊指代型 - 包含\"它\"、\"他们\"、\"都\"、\"这个\"等指代词\n4. 多意图型 - 包含多个独立问题，用\"、\"或\"？\"分隔\n5. 反问型 - 包含\"不会\"、\"难道\"等反问语气\n6. 普通型 - 不属于以上任何一种的常规问题。\n\n说明：如果同时存在多意图型、模糊指代型，优先级为多意图型>模糊指代型。请返回最符合的一种类型。\n\n请严格按照以下JSON格式返回结果，不要包含任何其他解释：\n\x7b\n    \"query_type\": \"识别出的查询类型\",\n    \"confidence\": 0.8\n\x7d\n"

/-- The prompt `QueryTypeDetector.detect` sends (lines 175-188). -/
def detectPrompt (query conversationHistory contextInfo : String) : String :=
  "### 指令 ###\n" ++ detectInstruction ++ "\n\n### 对话历史 ###\n" ++
    conversationHistory ++ "\n\n### 上下文信息 ###\n" ++ contextInfo ++
    "\n\n### 原始查询 ###\n" ++ query ++ "\n\n### 分析结果 (JSON) ###\n"

/-- The dictionary `detect` returns when its JSON parse fails
(lines 197-200): `{"query_type": "普通型", "confidence": 0.5}`. -/
def defaultDetection : PyValue :=
  PyValue.pyDict [("query_type", PyValue.pyStr "普通型"),
                  ("confidence", PyValue.pyNum (1 / 2))]

/-- `QueryTypeDetector.detect` (lines 156-200): obtain the completion,
strip code fences, `json.loads` it; a successful parse is returned
unchanged (no shape validation), a parse failure yields
`defaultDetection`.  With string input `json.loads` raises only
`json.JSONDecodeError`, so `detect` itself never raises. -/
def detect (jparse : ParseFun) (provider : ProviderFun)
    (query conversationHistory contextInfo : String) : PyValue :=
  let response := getCompletion provider (detectPrompt query conversationHistory contextInfo)
  match jparse (cleanResponse response) with
  | some v => v
  | none => defaultDetection

/-- Python equality of a `str` against an arbitrary value (`==` between
a string and a non-string is `False`). -/
def pyEqStr (s : String) : PyValue → Bool
  | PyValue.pyStr t => s == t
  | _ => false

/-- Python `detection_result.get(key, default)` (line 218): only a
`dict` has the `get` attribute; any other value raises
`AttributeError`.  Parsed JSON objects have unique keys, so first-match
lookup is exact. -/
def pyDictGet (v : PyValue) (key : String) (dflt : PyValue) :
    Except PyError PyValue :=
  match v with
  | PyValue.pyDict kvs =>
    Except.ok (match kvs.lookup key with
               | some x => x
               | none => dflt)
  | _ => Except.error PyError.attributeError

/-- Python `needle in v` for a string needle (lines 223-231): substring
test on a `str`, element equality on a `list`, key membership on a
`dict`; on `None`, `bool` or a number it raises `TypeError`. -/
def pyContains (needle : String) (v : PyValue) : Except PyError Bool :=
  match v with
  | PyValue.pyStr s => Except.ok (strIn needle s)
  | PyValue.pyList xs => Except.ok (xs.any (pyEqStr needle))
  | PyValue.pyDict kvs => Except.ok (kvs.any (fun kv => kv.fst == needle))
  | _ => Except.error PyError.typeError

/-- The strategy selected by the `if/elif` chain of
`QueryRewriteManager.rewrite_query` (lines 223-235); `plain` is the
final `else` arm returning the query unchanged. -/
inductive Strategy where
  | contextDependent : Strategy
  | comparative : Strategy
  | ambiguousReference : Strategy
  | multiIntent : Strategy
  | rhetorical : Strategy
  | plain : Strategy
deriving DecidableEq, Repr

/-- The `if/elif` chain of `rewrite_query` (lines 223-235) as a
selection function on the detected `query_type` value, testing the five
marker substrings in source order. -/
def dispatch (queryType : PyValue) : Except PyError Strategy :=
  match pyContains "上下文依赖" queryType with
  | Except.error e => Except.error e
  | Except.ok true => Except.ok Strategy.contextDependent
  | Except.ok false =>
    match pyContains "对比" queryType with
    | Except.error e => Except.error e
    | Except.ok true => Except.ok Strategy.comparative
    | Except.ok false =>
      match pyContains "模糊指代" queryType with
      | Except.error e => Except.error e
      | Except.ok true => Except.ok Strategy.ambiguousReference
      | Except.ok false =>
        match pyContains "多意图" queryType with
        | Except.error e => Except.error e
        | Except.ok true => Except.ok Strategy.multiIntent
        | Except.ok false =>
          match pyContains "反问" queryType with
          | Except.error e => Except.error e
          | Except.ok true => Except.ok Strategy.rhetorical
          | Except.ok false => Except.ok Strategy.plain

/-- The body of each arm of the `if/elif` chain (lines 224-235): invoke
the selected strategy rewriter.  `rewrite_query` passes
`conversation_history` to every strategy that takes a second argument,
including the comparative one (line 226); the multi-intent strategy
receives only the query (line 230). -/
def applyStrategy (jparse : ParseFun) (provider : ProviderFun)
    (query conversationHistory : String) : Strategy → PyValue
  | Strategy.contextDependent =>
    PyValue.pyStr (contextDependentRewrite provider query conversationHistory)
  | Strategy.comparative =>
    PyValue.pyStr (comparativeRewrite provider query conversationHistory)
  | Strategy.ambiguousReference =>
    PyValue.pyStr (ambiguousReferenceRewrite provider query conversationHistory)
  | Strategy.multiIntent => multiIntentRewrite jparse provider query
  | Strategy.rhetorical =>
    PyValue.pyStr (rhetoricalRewrite provider query conversationHistory)
  | Strategy.plain => PyValue.pyStr query

/-- `QueryRewriteManager.rewrite_query` (lines 215-238): detect the
query type (with empty `context_info`), read `query_type` via `.get`
with default `"普通型"`, run the `if/elif` chain, and return the chosen
strategy result.  `Except.error` models a Python exception escaping to
the caller. -/
def rewriteQuery (jparse : ParseFun) (provider : ProviderFun)
    (query conversationHistory : String) : Except PyError PyValue :=
  let detectionResult := detect jparse provider query conversationHistory ""
  match pyDictGet detectionResult "query_type" (PyValue.pyStr "普通型") with
  | Except.error e => Except.error e
  | Except.ok queryType =>
    match dispatch queryType with
    | Except.error e => Except.error e
    | Except.ok strat =>
      Except.ok (applyStrategy jparse provider query conversationHistory strat)

/-- The query-type values on which the membership tests of the
`if/elif` chain cannot raise: Python `in` is defined on `str`, `list`
and `dict`, and raises `TypeError` on `None`, `bool` and numbers. -/
def safeQueryType : PyValue → Bool
  | PyValue.pyStr _ => true
  | PyValue.pyList _ => true
  | PyValue.pyDict _ => true
  | _ => false

/-- The detection results on which `rewrite_query` cannot raise: a
`dict` (anything else makes `.get` raise `AttributeError`) whose
`query_type` member, when present, supports the `in` operator. -/
def safeDetectionValue : PyValue → Bool
  | PyValue.pyDict kvs =>
    (match kvs.lookup "query_type" with
     | none => true
     | some qt => safeQueryType qt)
  | _ => false

/-- Is the value a Python `str`? -/
def pyIsStr : PyValue → Bool
  | PyValue.pyStr _ => true
  | _ => false

/-- Is the value a single string or a list of strings — the two result
shapes the caller-facing contract of `rewrite_query` announces? -/
def isStrOrListOfStr : PyValue → Bool
  | PyValue.pyStr _ => true
  | PyValue.pyList xs => xs.all pyIsStr
  | _ => false

/-- On every query-type value supporting the `in` operator, the
`if/elif` chain selects a strategy without raising. -/
theorem exists_dispatch_ok (qt : PyValue) (h : safeQueryType qt = true) :
    ∃ s, dispatch qt = Except.ok s := by
  cases qt with
  | pyStr s =>
    simp only [dispatch, pyContains]
    cases strIn "上下文依赖" s <;> cases strIn "对比" s <;>
      cases strIn "模糊指代" s <;> cases strIn "多意图" s <;>
      cases strIn "反问" s <;> exact ⟨_, rfl⟩
  | pyList xs =>
    simp only [dispatch, pyContains]
    cases xs.any (pyEqStr "上下文依赖") <;> cases xs.any (pyEqStr "对比") <;>
      cases xs.any (pyEqStr "模糊指代") <;> cases xs.any (pyEqStr "多意图") <;>
      cases xs.any (pyEqStr "反问") <;> exact ⟨_, rfl⟩
  | pyDict kvs =>
    simp only [dispatch, pyContains]
    cases kvs.any (fun kv => kv.fst == "上下文依赖") <;>
      cases kvs.any (fun kv => kv.fst == "对比") <;>
      cases kvs.any (fun kv => kv.fst == "模糊指代") <;>
      cases kvs.any (fun kv => kv.fst == "多意图") <;>
      cases kvs.any (fun kv => kv.fst == "反问") <;> exact ⟨_, rfl⟩
  | pyNone => simp [safeQueryType] at h
  | pyBool b => simp [safeQueryType] at h
  | pyNum q => simp [safeQueryType] at h

set_option maxRecDepth 40000 in
/-- C1, counterexample: the label 多意图模糊指代 contains both the
multi-intent and the ambiguous-reference marker, yet the dispatcher
selects the AmbiguousReference strategy, and an end-to-end run of
`rewrite_query` with the detector returning that label yields the
ambiguous-reference rewrite (a plain string), not the multi-intent
result, because line 227 tests 模糊指代 before line 229 tests 多意图. -/
theorem claim1_counterexample :
    strIn "多意图" "多意图模糊指代" = true
    ∧ strIn "模糊指代" "多意图模糊指代" = true
    ∧ dispatch (PyValue.pyStr "多意图模糊指代") = Except.ok Strategy.ambiguousReference
    ∧ rewriteQuery
        (fun s => if s = "J" then
          some (PyValue.pyDict [("query_type", PyValue.pyStr "多意图模糊指代")]) else none)
        (fun p => ProviderReply.completion (some
          (if strIn "智能的查询分析专家" p then "J" else "X"))) "q" "" =
        Except.ok (PyValue.pyStr "X")
    ∧ PyValue.pyStr "X" ≠ multiIntentRewrite
        (fun s => if s = "J" then
          some (PyValue.pyDict [("query_type", PyValue.pyStr "多意图模糊指代")]) else none)
        (fun p => ProviderReply.completion (some
          (if strIn "智能的查询分析专家" p then "J" else "X"))) "q" :=
  ⟨rfl, rfl, rfl, rfl, fun h => PyValue.noConfusion h⟩

/-- C1 (corrected): a detector label containing both the multi-intent
marker 多意图 and the ambiguous-reference marker 模糊指代 — and neither
of the two markers tested earlier, 上下文依赖 and 对比 — dispatches to
the AmbiguousReference strategy, never to MultiIntent, and
`rewrite_query` then returns the ambiguous-reference rewrite. -/
theorem claim1_amended (t : String)
    (hmi : strIn "多意图" t = true) (har : strIn "模糊指代" t = true)
    (hctx : strIn "上下文依赖" t = false) (hcmp : strIn "对比" t = false) :
    dispatch (PyValue.pyStr t) = Except.ok Strategy.ambiguousReference
    ∧ ∀ (jparse : ParseFun) (provider : ProviderFun) (query history : String),
      pyDictGet (detect jparse provider query history "") "query_type"
        (PyValue.pyStr "普通型") = Except.ok (PyValue.pyStr t) →
      rewriteQuery jparse provider query history =
        Except.ok (PyValue.pyStr (ambiguousReferenceRewrite provider query history)) := by
  have hd : dispatch (PyValue.pyStr t) = Except.ok Strategy.ambiguousReference := by
    simp only [dispatch, pyContains, har, hctx, hcmp]
  refine ⟨hd, ?_⟩
  intro jparse provider query history hqt
  simp only [rewriteQuery, hqt, hd, applyStrategy]

/-- C1, witness: the amended theorem applied to the concrete label
多意图型、模糊指代型, which contains both markers. -/
theorem claim1_amended_witness :
    dispatch (PyValue.pyStr "多意图型、模糊指代型") =
      Except.ok Strategy.ambiguousReference :=
  (claim1_amended "多意图型、模糊指代型" (by rfl) (by rfl) (by rfl) (by rfl)).1

/-- C2, counterexample: when the detector completion is the valid JSON
text for an empty array — so `json.loads` succeeds with a non-dict —
`rewrite_query` raises `AttributeError` (line 218 calls `.get` on the
parsed value) instead of returning a value. -/
theorem claim2_counterexample :
    rewriteQuery (fun s => if s = "[]" then some (PyValue.pyList []) else none)
      (fun _ => ProviderReply.completion (some "[]")) "q" "" =
      Except.error PyError.attributeError := rfl

/-- C2 (corrected): `rewrite_query` returns a value and never raises,
for every completion behaviour, provided every successful JSON parse of
the detector completion yields a dict whose `query_type` member (when
present) is a string, list or dict; a non-dict parse raises
`AttributeError` and a `None`/`bool`/number `query_type` raises
`TypeError`. -/
theorem claim2_amended (jparse : ParseFun) (provider : ProviderFun)
    (query history : String)
    (hsafe : ∀ v, jparse (cleanResponse (getCompletion provider
      (detectPrompt query history ""))) = some v → safeDetectionValue v = true) :
    (rewriteQuery jparse provider query history).isOk = true := by
  have hdet : safeDetectionValue (detect jparse provider query history "") = true := by
    cases hjp : jparse (cleanResponse (getCompletion provider
        (detectPrompt query history ""))) with
    | none => simp only [detect, hjp]; rfl
    | some v => simp only [detect, hjp]; exact hsafe v hjp
  cases hd : detect jparse provider query history "" with
  | pyDict kvs =>
    rw [hd] at hdet
    simp only [safeDetectionValue] at hdet
    simp only [rewriteQuery, hd, pyDictGet]
    cases hlk : kvs.lookup "query_type" with
    | none => exact rfl
    | some qt =>
      rw [hlk] at hdet
      obtain ⟨s, hs⟩ := exists_dispatch_ok qt (by exact hdet)
      simp only [hs]
      rfl
  | pyNone => rw [hd] at hdet; simp [safeDetectionValue] at hdet
  | pyBool b => rw [hd] at hdet; simp [safeDetectionValue] at hdet
  | pyNum q => rw [hd] at hdet; simp [safeDetectionValue] at hdet
  | pyStr s => rw [hd] at hdet; simp [safeDetectionValue] at hdet
  | pyList xs => rw [hd] at hdet; simp [safeDetectionValue] at hdet

/-- C2, witness: the amended theorem at a capability that always
raises, whose detector completion therefore never parses. -/
theorem claim2_witness :
    (rewriteQuery (fun _ => none) (fun _ => ProviderReply.raises) "你好" "").isOk = true :=
  claim2_amended (fun _ => none) (fun _ => ProviderReply.raises) "你好" ""
    (fun v hv => Option.noConfusion hv)

/-- C3, counterexample: a detector completion that is the valid JSON
text for an empty array parses successfully, so `detect` returns the
parsed non-object value rather than the default detection result. -/
theorem claim3_counterexample :
    detect (fun s => if s = "[]" then some (PyValue.pyList []) else none)
      (fun _ => ProviderReply.completion (some "[]")) "q" "" "" = PyValue.pyList []
    ∧ detect (fun s => if s = "[]" then some (PyValue.pyList []) else none)
        (fun _ => ProviderReply.completion (some "[]")) "q" "" "" ≠ defaultDetection :=
  ⟨rfl, fun h => PyValue.noConfusion h⟩

/-- C3 (corrected): when the code-fence-stripped detector completion
fails to parse as JSON, `detect` returns the default result
(query_type 普通型, confidence 0.5) and never raises; but a completion
that parses successfully is returned as the parsed value without any
shape validation, even when it is not an object of the expected
shape. -/
theorem claim3_amended (jparse : ParseFun) (provider : ProviderFun)
    (query history contextInfo : String) :
    (jparse (cleanResponse (getCompletion provider
        (detectPrompt query history contextInfo))) = none →
      detect jparse provider query history contextInfo = defaultDetection)
    ∧ (∀ v, jparse (cleanResponse (getCompletion provider
        (detectPrompt query history contextInfo))) = some v →
      detect jparse provider query history contextInfo = v) := by
  constructor
  · intro hfail
    simp only [detect, hfail]
  · intro v hv
    simp only [detect, hv]

/-- C3, witness: the amended theorem at a capability that always
raises, so the empty completion fails to parse and the default is
returned. -/
theorem claim3_witness :
    detect (fun _ => none) (fun _ => ProviderReply.raises) "q" "" "" = defaultDetection :=
  (claim3_amended (fun _ => none) (fun _ => ProviderReply.raises) "q" "" "").1 rfl

/-- C4, counterexample: a multi-intent completion of 7 is valid JSON
that is not an array; `json.loads` succeeds, so the rewriter returns
the parsed number as-is and not the single-element raw-text list the
claim requires. -/
theorem claim4_counterexample :
    multiIntentRewrite (fun s => if s = "7" then some (PyValue.pyNum 7) else none)
      (fun _ => ProviderReply.completion (some "7")) "q" = PyValue.pyNum 7
    ∧ multiIntentRewrite (fun s => if s = "7" then some (PyValue.pyNum 7) else none)
        (fun _ => ProviderReply.completion (some "7")) "q" ≠
      PyValue.pyList [PyValue.pyStr "7"] :=
  ⟨rfl, fun h => PyValue.noConfusion h⟩

/-- C4 (corrected): when the code-fence-stripped multi-intent
completion fails to parse as JSON (malformed JSON), the outcome is
exactly the single-element sequence holding the raw completion text
verbatim, never an error and never empty unless the completion was
empty; but a completion that parses to a non-array JSON value is
returned as that parsed value, not wrapped. -/
theorem claim4_amended (jparse : ParseFun) (provider : ProviderFun) (query : String)
    (hfail : jparse (cleanResponse (getCompletion provider (multiIntentPrompt query))) = none) :
    multiIntentRewrite jparse provider query =
      PyValue.pyList [PyValue.pyStr (getCompletion provider (multiIntentPrompt query))] := by
  simp only [multiIntentRewrite, hfail]

/-- C4, witness: the amended theorem at a completion that is not valid
JSON. -/
theorem claim4_witness :
    multiIntentRewrite (fun _ => none)
      (fun _ => ProviderReply.completion (some "这不是JSON")) "q" =
      PyValue.pyList [PyValue.pyStr (getCompletion
        (fun _ => ProviderReply.completion (some "这不是JSON")) (multiIntentPrompt "q"))] :=
  claim4_amended _ _ "q" (by rfl)

/-- C5, counterexample: with a capability that raises, the gateway
yields the empty string, and the ContextDependent rewrite returns that
empty string — not the input query 你好 as the claim states. -/
theorem claim5_counterexample :
    getCompletion (fun _ => ProviderReply.raises)
      (contextDependentPrompt "你好" "h") = ""
    ∧ contextDependentRewrite (fun _ => ProviderReply.raises) "你好" "h" = ""
    ∧ ("" : String) ≠ "你好" :=
  ⟨rfl, rfl, by decide⟩

/-- C5 (corrected): when the Completion Gateway yields the empty
string, each non-MultiIntent strategy rewrite returns that empty
string (the gateway output as-is), not the input query; the original
query is only recovered at the manager level, where the empty detector
completion fails to parse, the default 普通型 detection is used, and
`rewrite_query` returns the query unchanged. -/
theorem claim5_amended (provider : ProviderFun) (query history : String)
    (hfail : ∀ p, getCompletion provider p = "") :
    (contextDependentRewrite provider query history = ""
     ∧ comparativeRewrite provider query history = ""
     ∧ ambiguousReferenceRewrite provider query history = ""
     ∧ rhetoricalRewrite provider query history = "")
    ∧ ∀ (jparse : ParseFun), jparse "" = none →
        rewriteQuery jparse provider query history = Except.ok (PyValue.pyStr query) := by
  refine ⟨⟨hfail _, hfail _, hfail _, hfail _⟩, ?_⟩
  intro jparse hjp
  have h1 : detect jparse provider query history "" = defaultDetection := by
    simp only [detect, hfail, show cleanResponse "" = "" from rfl, hjp]
  simp only [rewriteQuery, h1]
  rfl

/-- C5, witness: the amended theorem at a capability returning no
response object, with a parse function refusing the empty string as
`json.loads` does. -/
theorem claim5_witness :
    (contextDependentRewrite (fun _ => ProviderReply.noResp) "问题" "历史" = ""
     ∧ comparativeRewrite (fun _ => ProviderReply.noResp) "问题" "历史" = ""
     ∧ ambiguousReferenceRewrite (fun _ => ProviderReply.noResp) "问题" "历史" = ""
     ∧ rhetoricalRewrite (fun _ => ProviderReply.noResp) "问题" "历史" = "")
    ∧ rewriteQuery (fun _ => none) (fun _ => ProviderReply.noResp) "问题" "历史" =
        Except.ok (PyValue.pyStr "问题") :=
  ⟨(claim5_amended (fun _ => ProviderReply.noResp) "问题" "历史" (fun _ => rfl)).1,
   (claim5_amended (fun _ => ProviderReply.noResp) "问题" "历史" (fun _ => rfl)).2
     (fun _ => none) rfl⟩

set_option maxRecDepth 40000 in
/-- C6, counterexample: with the detector returning 多意图型 and the
multi-intent completion parsing to an empty JSON object, `rewrite_query`
returns that dict — a value that is neither a single string nor a
sequence of strings. -/
theorem claim6_counterexample :
    rewriteQuery
      (fun s =>
        if s = "\x7b\x7d" then some (PyValue.pyDict [])
        else if s = "\x7b\"query_type\": \"多意图型\"\x7d" then
          some (PyValue.pyDict [("query_type", PyValue.pyStr "多意图型")])
        else none)
      (fun p => ProviderReply.completion (some
        (if strIn "任务分解机器人" p then "\x7b\x7d"
         else "\x7b\"query_type\": \"多意图型\"\x7d")))
      "甲和乙" "" = Except.ok (PyValue.pyDict [])
    ∧ isStrOrListOfStr (PyValue.pyDict []) = false :=
  ⟨rfl, rfl⟩

/-- C6 (corrected): every value `rewrite_query` returns without raising
is a single string unless the dispatch went to the MultiIntent
strategy; only that path can yield a non-string value, namely whatever
Python value the completion parsed to (not necessarily a sequence of
strings) or the single-element raw-text fallback list. -/
theorem claim6_amended (jparse : ParseFun) (provider : ProviderFun)
    (query history : String) (v : PyValue)
    (hok : rewriteQuery jparse provider query history = Except.ok v) :
    (∃ s, v = PyValue.pyStr s) ∨
    (∃ qt, pyDictGet (detect jparse provider query history "") "query_type"
        (PyValue.pyStr "普通型") = Except.ok qt
      ∧ dispatch qt = Except.ok Strategy.multiIntent
      ∧ v = multiIntentRewrite jparse provider query) := by
  cases hget : pyDictGet (detect jparse provider query history "") "query_type"
      (PyValue.pyStr "普通型") with
  | error e =>
    simp only [rewriteQuery, hget] at hok
    exact Except.noConfusion hok
  | ok qt =>
    cases hdisp : dispatch qt with
    | error e =>
      simp only [rewriteQuery, hget, hdisp] at hok
      exact Except.noConfusion hok
    | ok strat =>
      simp only [rewriteQuery, hget, hdisp, Except.ok.injEq] at hok
      cases strat with
      | contextDependent => exact Or.inl ⟨_, hok.symm⟩
      | comparative => exact Or.inl ⟨_, hok.symm⟩
      | ambiguousReference => exact Or.inl ⟨_, hok.symm⟩
      | rhetorical => exact Or.inl ⟨_, hok.symm⟩
      | plain => exact Or.inl ⟨_, hok.symm⟩
      | multiIntent => exact Or.inr ⟨qt, rfl, hdisp, hok.symm⟩

/-- C6, witness: the amended theorem at a failing capability, where the
result is the original query string. -/
theorem claim6_witness :
    (∃ s, PyValue.pyStr "天气" = PyValue.pyStr s) ∨
    (∃ qt, pyDictGet (detect (fun _ => none) (fun _ => ProviderReply.raises) "天气" "" "")
        "query_type" (PyValue.pyStr "普通型") = Except.ok qt
      ∧ dispatch qt = Except.ok Strategy.multiIntent
      ∧ PyValue.pyStr "天气" =
          multiIntentRewrite (fun _ => none) (fun _ => ProviderReply.raises) "天气") :=
  claim6_amended (fun _ => none) (fun _ => ProviderReply.raises) "天气" ""
    (PyValue.pyStr "天气") (by rfl)

/-- C7 (confirmed): when the detected `query_type` is a string label
containing none of the five recognized marker substrings — which covers
the 普通型 default — the dispatcher selects the `plain` arm and
`rewrite_query` returns exactly the input query, invoking no strategy
rewriter. -/
theorem claim7_plain_returns_query (jparse : ParseFun) (provider : ProviderFun)
    (query history t : String)
    (hqt : pyDictGet (detect jparse provider query history "") "query_type"
      (PyValue.pyStr "普通型") = Except.ok (PyValue.pyStr t))
    (h1 : strIn "上下文依赖" t = false) (h2 : strIn "对比" t = false)
    (h3 : strIn "模糊指代" t = false) (h4 : strIn "多意图" t = false)
    (h5 : strIn "反问" t = false) :
    rewriteQuery jparse provider query history = Except.ok (PyValue.pyStr query)
    ∧ dispatch (PyValue.pyStr t) = Except.ok Strategy.plain := by
  have hd : dispatch (PyValue.pyStr t) = Except.ok Strategy.plain := by
    simp only [dispatch, pyContains, h1, h2, h3, h4, h5]
  refine ⟨?_, hd⟩
  simp only [rewriteQuery, hqt, hd, applyStrategy]

/-- C7, witness: with the detector completion unparseable the default
label 普通型 is used, and the query comes back unchanged. -/
theorem claim7_witness :
    rewriteQuery (fun _ => none) (fun _ => ProviderReply.raises) "今天天气如何" "" =
      Except.ok (PyValue.pyStr "今天天气如何")
    ∧ dispatch (PyValue.pyStr "普通型") = Except.ok Strategy.plain :=
  claim7_plain_returns_query _ _ _ _ "普通型" (by rfl) (by rfl) (by rfl) (by rfl)
    (by rfl) (by rfl)

/-- C8 (confirmed): when the detected query type dispatches to
MultiIntent and the multi-intent completion parses to a JSON array of
strings, `rewrite_query` returns exactly that array, in order. -/
theorem claim8_multi_intent_array (jparse : ParseFun) (provider : ProviderFun)
    (query history : String) (queryType : PyValue) (ss : List String)
    (hqt : pyDictGet (detect jparse provider query history "") "query_type"
      (PyValue.pyStr "普通型") = Except.ok queryType)
    (hdisp : dispatch queryType = Except.ok Strategy.multiIntent)
    (hparse : jparse (cleanResponse (getCompletion provider (multiIntentPrompt query))) =
      some (PyValue.pyList (ss.map PyValue.pyStr))) :
    rewriteQuery jparse provider query history =
      Except.ok (PyValue.pyList (ss.map PyValue.pyStr)) := by
  simp only [rewriteQuery, hqt, hdisp, applyStrategy, multiIntentRewrite, hparse]

set_option maxRecDepth 40000 in
/-- C8, witness: the detector reports 多意图型, the multi-intent
completion is the JSON array of 甲 and 乙, and the outcome is that
two-element list in order. -/
theorem claim8_witness :
    rewriteQuery
      (fun s =>
        if s = "[\"甲\", \"乙\"]" then
          some (PyValue.pyList [PyValue.pyStr "甲", PyValue.pyStr "乙"])
        else if s = "\x7b\"query_type\": \"多意图型\"\x7d" then
          some (PyValue.pyDict [("query_type", PyValue.pyStr "多意图型")])
        else none)
      (fun p => ProviderReply.completion (some
        (if strIn "任务分解机器人" p then "[\"甲\", \"乙\"]"
         else "\x7b\"query_type\": \"多意图型\"\x7d")))
      "问甲？问乙？" "" =
      Except.ok (PyValue.pyList (["甲", "乙"].map PyValue.pyStr)) :=
  claim8_multi_intent_array _ _ _ _ (PyValue.pyStr "多意图型") ["甲", "乙"]
    (by rfl) (by rfl) (by rfl)

/-- C9 (confirmed): dispatcher matching is substring containment, not
exact equality — any detected string label containing 对比 (and not the
earlier-tested marker 上下文依赖) dispatches to the Comparative
strategy. -/
theorem claim9_substring_dispatch (jparse : ParseFun) (provider : ProviderFun)
    (query history t : String)
    (hqt : pyDictGet (detect jparse provider query history "") "query_type"
      (PyValue.pyStr "普通型") = Except.ok (PyValue.pyStr t))
    (hcmp : strIn "对比" t = true)
    (hctx : strIn "上下文依赖" t = false) :
    rewriteQuery jparse provider query history =
      Except.ok (PyValue.pyStr (comparativeRewrite provider query history))
    ∧ dispatch (PyValue.pyStr t) = Except.ok Strategy.comparative := by
  have hd : dispatch (PyValue.pyStr t) = Except.ok Strategy.comparative := by
    simp only [dispatch, pyContains, hcmp, hctx]
  refine ⟨?_, hd⟩
  simp only [rewriteQuery, hqt, hd, applyStrategy]

/-- C9, witness: the verbose label 对比型疑问句, which is not exactly
对比, still dispatches to the Comparative strategy. -/
theorem claim9_witness :
    (rewriteQuery
      (fun s => if s = "D" then
        some (PyValue.pyDict [("query_type", PyValue.pyStr "对比型疑问句"),
                              ("confidence", PyValue.pyNum (9 / 10))]) else none)
      (fun _ => ProviderReply.completion (some "D")) "哪个更好" "h" =
      Except.ok (PyValue.pyStr (comparativeRewrite
        (fun _ => ProviderReply.completion (some "D")) "哪个更好" "h"))
    ∧ dispatch (PyValue.pyStr "对比型疑问句") = Except.ok Strategy.comparative)
    ∧ "对比型疑问句" ≠ "对比" :=
  ⟨claim9_substring_dispatch _ _ _ _ "对比型疑问句" (by rfl) (by rfl) (by rfl),
   by decide⟩

/-- C10 (confirmed): the gateway returns the completion text of a
usable response with surrounding whitespace stripped; every
single-string outcome of a non-MultiIntent dispatch arm is either the
untouched input query or such a gateway string; and the multi-intent
raw-text fallback wraps exactly the gateway string. -/
theorem claim10_gateway_strips :
    (∀ (provider : ProviderFun) (prompt t : String),
      provider prompt = ProviderReply.completion (some t) → t ≠ "" →
      getCompletion provider prompt = pyStrip t)
    ∧ (∀ (jparse : ParseFun) (provider : ProviderFun)
        (query history : String) (strat : Strategy), strat ≠ Strategy.multiIntent →
        applyStrategy jparse provider query history strat = PyValue.pyStr query ∨
        ∃ p, applyStrategy jparse provider query history strat =
          PyValue.pyStr (getCompletion provider p))
    ∧ (∀ (jparse : ParseFun) (provider : ProviderFun) (query : String),
        jparse (cleanResponse (getCompletion provider (multiIntentPrompt query))) = none →
        multiIntentRewrite jparse provider query =
          PyValue.pyList [PyValue.pyStr (getCompletion provider (multiIntentPrompt query))]) := by
  refine ⟨?_, ?_, ?_⟩
  · intro provider prompt t hp ht
    simp [getCompletion, hp, ht]
  · intro jparse provider query history strat hs
    cases strat with
    | contextDependent => exact Or.inr ⟨_, rfl⟩
    | comparative => exact Or.inr ⟨_, rfl⟩
    | ambiguousReference => exact Or.inr ⟨_, rfl⟩
    | multiIntent => exact absurd rfl hs
    | rhetorical => exact Or.inr ⟨_, rfl⟩
    | plain => exact Or.inl rfl
  · intro jparse provider query hfail
    simp only [multiIntentRewrite, hfail]

/-- C10, witness: a completion text padded with spaces comes out of the
gateway stripped. -/
theorem claim10_witness :
    getCompletion (fun _ => ProviderReply.completion (some "  嗯  ")) "p" = pyStrip "  嗯  "
    ∧ pyStrip "  嗯  " = "嗯" :=
  ⟨claim10_gateway_strips.1 (fun _ => ProviderReply.completion (some "  嗯  ")) "p"
    "  嗯  " rfl (by decide), by rfl⟩
